import Mathlib

/-!
Shallow embedding of `src/modis_live.py` (the live MODIS AOD fetch pipeline):
geocoding, CMR granule search, cached authenticated download, and HDF raster
extraction with fill-value masking and nearest-neighbour selection.

Floating-point values are idealised as rationals (`ℚ`); NumPy's NaN marker
introduced by `np.where(aod == fill, np.nan, aod)` is modelled by `Option ℚ`
(`none` = NaN); Python exceptions become an explicit error type.  Grids are
flattened row-major (2-D shape is irrelevant to the extraction semantics:
`np.unravel_index` of the flat argmin indexes the same cell).
-/

deriving instance DecidableEq for Except

namespace ModisLive

/-- The error taxonomy of the design (§7 of the spec): each member corresponds
to one `raise` site in `modis_live.py`. `valueDataError` stands for the
`ValueError` that `np.nanargmin` raises on an empty / all-NaN distance array
(not a `ModisLiveError`). -/
inductive PipelineError where
  | configurationError
  | geocodeLookupError
  | granuleLookupError
  | linkLookupError
  | authError
  | transportError
  | dataError
  | valueDataError
deriving DecidableEq, Repr

/-- Attributes of an HDF SDS variable, as far as the code reads them:
`scale_factor`, `add_offset`, `_FillValue`.  `none` models an absent
attribute (`attrs.get(...)` returning the default/`None`). -/
structure SdsAttrs where
  scale_factor : Option ℚ
  add_offset : Option ℚ
  fillValue : Option ℚ
deriving DecidableEq, Repr

/-- `_apply_scale(data, attrs)`: `data * attrs.get("scale_factor", 1.0)
+ attrs.get("add_offset", 0.0)`, elementwise. -/
def _apply_scale (data : List ℚ) (attrs : SdsAttrs) : List ℚ :=
  let scale := attrs.scale_factor.getD 1
  let offset := attrs.add_offset.getD 0
  data.map (fun v => v * scale + offset)

/-- The decoded content of the HDF file: AOD raw grid, latitude grid,
longitude grid (flattened row-major) and the AOD variable's attributes. -/
structure Grid where
  aod : List ℚ
  lat : List ℚ
  lon : List ℚ
  attrs : SdsAttrs
deriving DecidableEq, Repr

/-- Line 133: `aod = np.where(aod == fill, np.nan, aod)` — applied to the
*scaled* array when `_FillValue` is present; `none` models NaN. -/
def maskFill (aod : List ℚ) (fill : Option ℚ) : List (Option ℚ) :=
  match fill with
  | none => aod.map some
  | some f => aod.map (fun v => if v = f then none else some v)

/-- `np.nanargmin` on a NaN-free array: index and value of the first minimum
(first occurrence on ties, as NumPy returns), `none` on an empty array. -/
def argminP : List ℚ → Option (Nat × ℚ)
  | [] => none
  | x :: xs =>
    match argminP xs with
    | none => some (0, x)
    | some (j, m) => if m < x then some (j + 1, m) else some (0, x)

/-- Squared planar distance grid, line 135:
`(lat_arr - lat) ** 2 + (lon_arr - lon) ** 2`. -/
def distGrid (g : Grid) (lat lon : ℚ) : List ℚ :=
  List.zipWith (fun la lo => (la - lat) ^ 2 + (lo - lon) ^ 2) g.lat g.lon

/-- `read_aod_from_hdf(hdf_path, lat, lon)` (lines 121-141), with the decoded
file content `g` in place of the path: scale the AOD grid, mask cells equal to
`_FillValue` (when present) with NaN, take the cell of minimal squared planar
distance; raise `DataError` when the value there is NaN. -/
def read_aod_from_hdf (g : Grid) (lat lon : ℚ) : Except PipelineError ℚ :=
  let aod := _apply_scale g.aod g.attrs
  let aodM := maskFill aod g.attrs.fillValue
  match argminP (distGrid g lat lon) with
  | none => .error .valueDataError
  | some (i, _) =>
    match aodM.getD i none with
    | none => .error .dataError
    | some v => .ok v

/-- A 2-cell grid whose geometrically nearest cell (index 0, distance 0) holds
the raw fill sentinel while the farther cell (index 1, distance 100) holds a
valid reading of 5.  Default scale/offset, `_FillValue = -9999`. -/
def gridC1 : Grid := ⟨[-9999, 5], [0, 10], [0, 0], ⟨none, none, some (-9999)⟩⟩

/-- A grid in which every raw AOD cell equals the `_FillValue` sentinel
`-9999`, with `scale_factor = 2` and `add_offset = 0`. -/
def gridC2 : Grid := ⟨[-9999, -9999], [0, 1], [0, 0], ⟨some 2, some 0, some (-9999)⟩⟩

/-- Nearest cell (index 0) holds the raw sentinel `-9999`; `scale_factor = 2`,
`add_offset = 0`, so its scaled value is `-19998`. -/
def gridC3 : Grid := ⟨[-9999, 3], [0, 1], [0, 0], ⟨some 2, some 0, some (-9999)⟩⟩

/-- Python `str.endswith`: the suffix test used on link `href`s and `rel`s. -/
def pyEndsWith (s suffix : String) : Bool :=
  suffix.data.isSuffixOf s.data

/-- One entry of the CMR `links` array; `href`/`rel` model
`link.get("href", "")` and `link.get("rel", "")` (absent keys become `""`). -/
structure CmrLink where
  href : String
  rel : String
deriving DecidableEq, Repr

/-- The link-selection policy of `search_granule` (lines 67-79): first link
whose `href` ends in `.hdf`; else the `href` of the first link whose `rel`
ends in `/data#`; if the resulting url is empty, `LookupError`. -/
def selectUrl (links : List CmrLink) : Except PipelineError String :=
  let url1 :=
    match links.find? (fun l => pyEndsWith l.href ".hdf") with
    | some l => l.href
    | none => ""
  let url2 :=
    if url1 = "" then
      match links.find? (fun l => pyEndsWith l.rel "/data#") with
      | some l => l.href
      | none => ""
    else url1
  if url2 = "" then .error .linkLookupError else .ok url2

/-- The proleptic-Gregorian leap-year rule used by `datetime.date`. -/
def isLeapYear (y : Nat) : Bool :=
  y % 4 = 0 && (y % 100 ≠ 0 || y % 400 = 0)

/-- Days in month `m` (1-12) of year `y`. -/
def daysInMonth (y m : Nat) : Nat :=
  if m = 2 then (if isLeapYear y then 29 else 28)
  else if m = 4 ∨ m = 6 ∨ m = 9 ∨ m = 11 then 30
  else 31

/-- Days in year `y` before month `m` (CPython `_days_before_month`). -/
def daysBeforeMonth (y m : Nat) : Nat :=
  (List.range (m - 1)).foldl (fun acc i => acc + daysInMonth y (i + 1)) 0

/-- CPython `datetime.date.toordinal`: day number of `y-m-d` in the proleptic
Gregorian calendar, with `0001-01-01` as day 1.  `datetime` arithmetic
(`+ timedelta(days=1)`) is ordinal arithmetic on this value. -/
def toordinal (y m d : Nat) : Nat :=
  (y - 1) * 365 + (y - 1) / 4 - (y - 1) / 100 + (y - 1) / 400
    + daysBeforeMonth y m + d

/-- A `datetime.datetime` value (UTC; microseconds dropped, the code never
uses them). -/
structure PyDateTime where
  year : Nat
  month : Nat
  day : Nat
  hour : Nat
  minute : Nat
  second : Nat
deriving DecidableEq, Repr

/-- The UTC instant of a `PyDateTime`, in seconds from the calendar origin;
`datetime(y, m, d, tzinfo=utc)` is `86400 * toordinal y m d` and
`+ timedelta(days=1)` is `+ 86400`. -/
def toUtcSeconds (t : PyDateTime) : Nat :=
  86400 * toordinal t.year t.month t.day + 3600 * t.hour + 60 * t.minute + t.second

/-- `_time_window(date)` (lines 41-46) as the pair (start, end) of UTC
instants: `start = datetime(date.year, date.month, date.day, tzinfo=utc)`,
`end = start + timedelta(days=1)`; `date=None` defaults to the current UTC
time `now`. -/
def _time_window (date : Option PyDateTime) (now : PyDateTime) : Nat × Nat :=
  let d := date.getD now
  (86400 * toordinal d.year d.month d.day,
    86400 * toordinal d.year d.month d.day + 86400)

/-- `CACHE_DIR = Path("data/modis_cache")`. -/
def CACHE_DIR : String := "data/modis_cache"

/-- Python `url.split("?")[0]`: the characters before the first `'?'`. -/
def beforeFirst (c : Char) (l : List Char) : List Char :=
  l.takeWhile (fun x => x != c)

/-- Python `s.split("/")[-1]`: the characters after the last `'/'`. -/
def afterLast (c : Char) (l : List Char) : List Char :=
  (l.reverse.takeWhile (fun x => x != c)).reverse

/-- Line 90: `filename = url.split("?")[0].split("/")[-1]` — the URL's path
basename with any query string stripped. -/
def cacheKey (url : String) : String :=
  ⟨afterLast '/' (beforeFirst '?' url.data)⟩

/-- The status of the HTTP response the world returns for a GET. -/
structure NetResponse where
  status : Nat
deriving DecidableEq, Repr

/-- Network side effects of the pipeline: the Nominatim geocoding request,
the CMR search request, and the streaming download GET. -/
inductive NetEvent where
  | geocodeCall (city : String)
  | cmrSearch
  | httpGet (url : String)
deriving DecidableEq, Repr

/-- `download_granule(url, auth)` (lines 88-104).  State passed explicitly:
`net` is the world's response to an authenticated GET, `cache` the set of
filenames present under `CACHE_DIR`.  Returns the result (the cached file's
path or an error), the new cache contents, and the network events performed.
A cache hit returns immediately with no network event; otherwise a 401
response raises `AuthError` before `raise_for_status` turns any other
4xx/5xx status into an `HTTPError` (`TransportError`). -/
def download_granule (net : String → String × String → NetResponse)
    (cache : List String) (url : String) (auth : String × String) :
    Except PipelineError String × List String × List NetEvent :=
  let key := cacheKey url
  let out_path := CACHE_DIR ++ "/" ++ key
  if key ∈ cache then
    (.ok out_path, cache, [])
  else
    let resp := net url auth
    if resp.status = 401 then (.error .authError, cache, [.httpGet url])
    else if 400 ≤ resp.status ∧ resp.status < 600 then
      (.error .transportError, cache, [.httpGet url])
    else (.ok out_path, key :: cache, [.httpGet url])

/-- One entry of the CMR search response feed. -/
structure CmrEntry where
  title : String
  time_start : String
  links : List CmrLink
deriving DecidableEq, Repr

/-- The query parameters `search_granule` sends to the CMR endpoint. -/
structure CmrQuery where
  short_name : String
  temporal : Nat × Nat
  bounding_box : ℚ × ℚ × ℚ × ℚ
  page_size : Nat
  sort_key : String
deriving Repr

/-- `SHORT_NAME = "MOD04_L2"`. -/
def SHORT_NAME : String := "MOD04_L2"

/-- The granule record `search_granule` returns (lines 81-85). -/
structure Granule where
  granule_id : String
  time_start : String
  download_url : String
deriving DecidableEq, Repr

/-- `search_granule(lat, lon, date)` (lines 49-85): builds the ±0.5° bounding
box and one-day temporal window, performs the CMR GET (`cmr` is the world's
response to the query), takes the first entry (page size 1) and applies the
link-selection policy. -/
def search_granule (cmr : CmrQuery → List CmrEntry) (lat lon : ℚ)
    (date : Option PyDateTime) (now : PyDateTime) :
    Except PipelineError Granule × List NetEvent :=
  let q : CmrQuery := ⟨SHORT_NAME, _time_window date now,
    (lon - 1/2, lat - 1/2, lon + 1/2, lat + 1/2), 1, "-start_date"⟩
  match cmr q with
  | [] => (.error .granuleLookupError, [.cmrSearch])
  | entry :: _ =>
    match selectUrl entry.links with
    | .error e => (.error e, [.cmrSearch])
    | .ok url => (.ok ⟨entry.title, entry.time_start, url⟩, [.cmrSearch])

/-- The world as the pipeline sees it: the two credential environment
variables (`none` = unset), the geocoding service, the CMR catalog, the HTTP
download endpoint, the cache directory contents, the decoded content of the
downloaded HDF file, and the current UTC time. -/
structure PipelineEnv where
  username : Option String
  password : Option String
  geocodeRes : String → Option (ℚ × ℚ)
  cmr : CmrQuery → List CmrEntry
  net : String → String × String → NetResponse
  cache : List String
  hdfGrid : Grid
  now : PyDateTime

/-- `_earthdata_auth()` (lines 22-29): `os.getenv` for both variables;
`if not username or not password` — unset (`none`) or empty (`""`) either way
is a `ConfigurationError`. -/
def _earthdata_auth (env : PipelineEnv) : Except PipelineError (String × String) :=
  match env.username, env.password with
  | some u, some p => if u = "" ∨ p = "" then .error .configurationError else .ok (u, p)
  | _, _ => .error .configurationError

/-- Either credential variable is unset or empty (the claim's hypothesis). -/
def credsMissing (env : PipelineEnv) : Bool :=
  match env.username, env.password with
  | some u, some p => u = "" || p = ""
  | _, _ => true

/-- `geocode_city(city)` (lines 32-38): one Nominatim request; no match is a
`LookupError`. -/
def geocode_city (env : PipelineEnv) (city : String) :
    Except PipelineError (ℚ × ℚ) × List NetEvent :=
  match env.geocodeRes city with
  | none => (.error .geocodeLookupError, [.geocodeCall city])
  | some loc => (.ok loc, [.geocodeCall city])

/-- The result record assembled by `fetch_live_aod` (lines 155-163). -/
structure Payload where
  city : String
  date : String
  latitude : ℚ
  longitude : ℚ
  modis_aod : ℚ
  granule_id : String
  source_url : String
deriving DecidableEq, Repr

/-- `fetch_live_aod(city, out_csv, date)` (lines 144-169), without the
optional CSV sink (pure file output, no claim concerns it): geocode, search,
THEN read the credentials, then download and extract, accumulating the
network events each stage performs.  The first failing stage aborts the
pipeline. -/
def fetch_live_aod (env : PipelineEnv) (city : String) (date : Option PyDateTime) :
    Except PipelineError Payload × List NetEvent :=
  match geocode_city env city with
  | (.error e, ev1) => (.error e, ev1)
  | (.ok (lat, lon), ev1) =>
    match search_granule env.cmr lat lon date env.now with
    | (.error e, ev2) => (.error e, ev1 ++ ev2)
    | (.ok g, ev2) =>
      match _earthdata_auth env with
      | .error e => (.error e, ev1 ++ ev2)
      | .ok auth =>
        match download_granule env.net env.cache g.download_url auth with
        | (.error e, _, ev3) => (.error e, ev1 ++ ev2 ++ ev3)
        | (.ok _, _, ev3) =>
          match read_aod_from_hdf env.hdfGrid lat lon with
          | .error e => (.error e, ev1 ++ ev2 ++ ev3)
          | .ok aod =>
            (.ok ⟨city,
                (if g.time_start = "" then "" else ⟨g.time_start.data.take 10⟩),
                lat, lon, aod, g.granule_id, g.download_url⟩,
              ev1 ++ ev2 ++ ev3)

/-- A world where `EARTHDATA_USERNAME` is unset but geocoding and the CMR
search both succeed (the granule has a `.hdf` link). -/
def envC4 : PipelineEnv :=
  ⟨none, some "secret",
    fun _ => some (0, 0),
    fun _ => [⟨"G1", "2024-03-10T12:00:00Z", [⟨"http://h/g.hdf", "r"⟩]⟩],
    fun _ _ => ⟨200⟩,
    [], gridC1, ⟨2024, 3, 10, 0, 0, 0⟩⟩

end ModisLive

namespace ModisLive

theorem argminP_eq_none {l : List ℚ} : argminP l = none ↔ l = [] := by
  cases l with
  | nil => simp [argminP]
  | cons x xs =>
    simp only [argminP]
    cases h : argminP xs with
    | none => simp
    | some p => cases p with
      | mk j m => by_cases hm : m < x <;> simp [hm]

theorem argminP_spec {l : List ℚ} {i : Nat} {m : ℚ} (h : argminP l = some (i, m)) :
    i < l.length ∧ l.getD i 0 = m ∧ ∀ j, j < l.length → m ≤ l.getD j 0 := by
  induction l generalizing i m with
  | nil => simp [argminP] at h
  | cons x xs ih =>
    simp only [argminP] at h
    cases hx : argminP xs with
    | none =>
      have hnil : xs = [] := argminP_eq_none.mp hx
      subst hnil
      simp only [hx] at h
      obtain ⟨rfl, rfl⟩ := Prod.mk.injEq .. ▸ (Option.some.injEq _ _ ▸ h :)
      refine ⟨by simp, by simp, ?_⟩
      intro j hj
      simp only [List.length_cons, List.length_nil] at hj
      have hj0 : j = 0 := by omega
      subst hj0
      simp
    | some p =>
      obtain ⟨j', m'⟩ := p
      obtain ⟨hj', hg', hmin'⟩ := ih hx
      rw [hx] at h
      by_cases hm : m' < x
      · simp only [if_pos hm] at h
        obtain ⟨hi, hmm⟩ := Prod.mk.injEq .. ▸ (Option.some.injEq _ _ ▸ h :)
        subst hi; subst hmm
        refine ⟨by simpa using Nat.succ_lt_succ hj', by simpa using hg', ?_⟩
        intro j hj
        cases j with
        | zero => simpa using le_of_lt hm
        | succ k =>
          simp only [List.getD_cons_succ]
          exact hmin' k (by simpa using hj)
      · simp only [if_neg hm] at h
        obtain ⟨hi, hmm⟩ := Prod.mk.injEq .. ▸ (Option.some.injEq _ _ ▸ h :)
        subst hi; subst hmm
        refine ⟨by simp, by simp, ?_⟩
        intro j hj
        cases j with
        | zero => simp
        | succ k =>
          simp only [List.getD_cons_succ]
          exact le_trans (not_lt.mp hm) (hmin' k (by simpa using hj))

/-- Characterisation of `read_aod_from_hdf` on well-shaped, nonempty grids:
the cell of minimal squared planar distance over ALL cells (missing or not)
is selected; its masked value decides between `.ok` and `DataError`. -/
theorem read_aod_char (g : Grid) (lat lon : ℚ)
    (hlat : g.lat.length = g.aod.length) (hlon : g.lon.length = g.aod.length)
    (hne : g.aod ≠ []) :
    ∃ i, i < g.aod.length ∧
      (∀ j, j < g.aod.length →
        (distGrid g lat lon).getD i 0 ≤ (distGrid g lat lon).getD j 0) ∧
      read_aod_from_hdf g lat lon =
        (match (maskFill (_apply_scale g.aod g.attrs) g.attrs.fillValue).getD i none with
         | none => .error .dataError
         | some v => .ok v) := by
  have hlen : (distGrid g lat lon).length = g.aod.length := by
    simp [distGrid, hlat, hlon]
  have hdne : distGrid g lat lon ≠ [] := by
    intro h0
    apply hne
    have h1 : g.aod.length = 0 := by rw [← hlen, h0]; rfl
    exact List.length_eq_zero.mp h1
  obtain ⟨⟨i, m⟩, hp⟩ : ∃ p, argminP (distGrid g lat lon) = some p := by
    cases hq : argminP (distGrid g lat lon) with
    | none => exact absurd (argminP_eq_none.mp hq) hdne
    | some p => exact ⟨p, rfl⟩
  obtain ⟨hi, hg, hmin⟩ := argminP_spec hp
  refine ⟨i, by rw [← hlen]; exact hi, ?_, ?_⟩
  · intro j hj
    rw [hg]
    exact hmin j (by rw [hlen]; exact hj)
  · simp only [read_aod_from_hdf]
    rw [hp]

/-- C1 counterexample: on `gridC1` with target `(0, 0)` the minimum-distance
NON-missing cell is index 1 with value 5 (the masked grid is
`[none, some 5]`, the distances `[0, 100]`), so the claim demands `.ok 5`;
the code instead selects index 0 over ALL cells and raises `DataError` —
there is no fallback to the next-nearest non-missing cell. -/
theorem c1_nearest_nonmissing_cex :
    maskFill (_apply_scale gridC1.aod gridC1.attrs) gridC1.attrs.fillValue
        = [none, some 5] ∧
    distGrid gridC1 0 0 = [0, 100] ∧
    read_aod_from_hdf gridC1 0 0 = .error .dataError ∧
    (Except.error PipelineError.dataError : Except PipelineError ℚ) ≠ .ok 5 := by
  refine ⟨?_, ?_, ?_, by simp⟩
  · norm_num [maskFill, _apply_scale, gridC1]
  · norm_num [distGrid, gridC1]
  · norm_num [read_aod_from_hdf, gridC1, maskFill, _apply_scale, distGrid, argminP]

/-- C1 (amended): extraction selects a cell of minimum squared planar distance
among ALL cells (missing ones included); when the masked value there is
present it is returned, and when that nearest cell is missing the extraction
raises `DataError` — it does not fall back to the next-nearest non-missing
cell. -/
theorem c1_nearest_cell_selected (g : Grid) (lat lon : ℚ)
    (hlat : g.lat.length = g.aod.length) (hlon : g.lon.length = g.aod.length)
    (hne : g.aod ≠ []) :
    ∃ i, i < g.aod.length ∧
      (∀ j, j < g.aod.length →
        (distGrid g lat lon).getD i 0 ≤ (distGrid g lat lon).getD j 0) ∧
      read_aod_from_hdf g lat lon =
        (match (maskFill (_apply_scale g.aod g.attrs) g.attrs.fillValue).getD i none with
         | none => .error .dataError
         | some v => .ok v) :=
  read_aod_char g lat lon hlat hlon hne

/-- Witness for C1 (amended) at the concrete grid `gridC1`, target `(0,0)`. -/
theorem c1_nearest_cell_selected_witness :
    gridC1.lat.length = gridC1.aod.length ∧
    gridC1.lon.length = gridC1.aod.length ∧
    gridC1.aod ≠ [] ∧
    (∃ i, i < gridC1.aod.length ∧
      (∀ j, j < gridC1.aod.length →
        (distGrid gridC1 0 0).getD i 0 ≤ (distGrid gridC1 0 0).getD j 0) ∧
      read_aod_from_hdf gridC1 0 0 =
        (match (maskFill (_apply_scale gridC1.aod gridC1.attrs)
            gridC1.attrs.fillValue).getD i none with
         | none => .error .dataError
         | some v => .ok v)) :=
  ⟨rfl, rfl, by simp [gridC1],
    c1_nearest_cell_selected gridC1 0 0 rfl rfl (by simp [gridC1])⟩

/-- C2, evaluated at the failing input: every raw cell of `gridC2` equals the
fill sentinel, yet because line 133 compares the SCALED array against the raw
sentinel (`-9999 * 2 = -19998 ≠ -9999`) no cell is masked, and extraction
returns `.ok (-19998)` — a fill-derived value — instead of raising
`DataError`. -/
theorem c2_all_fill_returns_value :
    (∀ v ∈ gridC2.aod, some v = gridC2.attrs.fillValue) ∧
    maskFill (_apply_scale gridC2.aod gridC2.attrs) gridC2.attrs.fillValue
        = [some (-19998), some (-19998)] ∧
    read_aod_from_hdf gridC2 0 0 = .ok (-19998) := by
  refine ⟨by simp [gridC2], ?_, ?_⟩
  · norm_num [maskFill, _apply_scale, gridC2]
  · norm_num [read_aod_from_hdf, gridC2, maskFill, _apply_scale, distGrid, argminP]

/-- C3, evaluated at the failing input: the masking of line 133 is applied to
the SCALED array, not the raw one.  On `gridC3` the raw-sentinel cell is NOT
marked missing (masked grid `[some (-19998), some 6]`) and its scaled value is
returned; conversely a cell whose raw value 0 is NOT the sentinel but whose
scaled value `0 * 1 + (-9999)` equals it IS marked missing. -/
theorem c3_mask_compares_scaled_cex :
    gridC3.aod.getD 0 0 = -9999 ∧
    gridC3.attrs.fillValue = some (-9999) ∧
    maskFill (_apply_scale gridC3.aod gridC3.attrs) gridC3.attrs.fillValue
        = [some (-19998), some 6] ∧
    read_aod_from_hdf gridC3 0 0 = .ok (-19998) ∧
    maskFill (_apply_scale [0] ⟨some 1, some (-9999), some (-9999)⟩) (some (-9999))
        = [none] := by
  refine ⟨by norm_num [gridC3], rfl, ?_, ?_, ?_⟩
  · norm_num [maskFill, _apply_scale, gridC3]
  · norm_num [read_aod_from_hdf, gridC3, maskFill, _apply_scale, distGrid, argminP]
  · norm_num [maskFill, _apply_scale]

/-- C8: `_apply_scale` converts every raw cell as `value * scale + offset`,
and with both attributes absent (defaults 1.0 and 0.0) it reproduces the raw
array unchanged. -/
theorem c8_apply_scale_formula (data : List ℚ) (fv : Option ℚ) (s o : ℚ) :
    _apply_scale data ⟨some s, some o, fv⟩ = data.map (fun v => v * s + o) ∧
    _apply_scale data ⟨none, none, fv⟩ = data := by
  constructor
  · rfl
  · simp [_apply_scale]

/-- C10: when the AOD variable carries no `_FillValue` attribute, no cell is
ever marked missing, and extraction returns the scaled value of the
geometrically nearest cell — never `DataError` — even when that raw value is
a sentinel such as `-9999`. -/
theorem c10_no_fill_attr_no_error (g : Grid) (lat lon : ℚ)
    (hfill : g.attrs.fillValue = none)
    (hlat : g.lat.length = g.aod.length) (hlon : g.lon.length = g.aod.length)
    (hne : g.aod ≠ []) :
    maskFill (_apply_scale g.aod g.attrs) g.attrs.fillValue
        = (_apply_scale g.aod g.attrs).map some ∧
    ∃ i, i < g.aod.length ∧
      (∀ j, j < g.aod.length →
        (distGrid g lat lon).getD i 0 ≤ (distGrid g lat lon).getD j 0) ∧
      read_aod_from_hdf g lat lon = .ok ((_apply_scale g.aod g.attrs).getD i 0) := by
  refine ⟨by rw [hfill]; rfl, ?_⟩
  obtain ⟨i, hi, hmin, heq⟩ := read_aod_char g lat lon hlat hlon hne
  refine ⟨i, hi, hmin, ?_⟩
  rw [heq, hfill]
  have hilen : i < (_apply_scale g.aod g.attrs).length := by
    simpa [_apply_scale] using hi
  rw [show maskFill (_apply_scale g.aod g.attrs) none
      = (_apply_scale g.aod g.attrs).map some from rfl]
  rw [List.getD_eq_getElem?_getD, List.getElem?_map,
    List.getElem?_eq_getElem hilen]
  simp [List.getD_eq_getElem?_getD, List.getElem?_eq_getElem hilen]

/-- Witness for C10 at a one-cell grid whose raw value is the sentinel
`-9999` (no `_FillValue` attribute): the sentinel itself is returned. -/
theorem c10_no_fill_attr_no_error_witness :
    (⟨[-9999], [0], [0], ⟨none, none, none⟩⟩ : Grid).attrs.fillValue = none ∧
    (maskFill (_apply_scale (⟨[-9999], [0], [0], ⟨none, none, none⟩⟩ : Grid).aod
          (⟨[-9999], [0], [0], ⟨none, none, none⟩⟩ : Grid).attrs)
        (⟨[-9999], [0], [0], ⟨none, none, none⟩⟩ : Grid).attrs.fillValue
        = (_apply_scale (⟨[-9999], [0], [0], ⟨none, none, none⟩⟩ : Grid).aod
            (⟨[-9999], [0], [0], ⟨none, none, none⟩⟩ : Grid).attrs).map some ∧
      ∃ i, i < (⟨[-9999], [0], [0], ⟨none, none, none⟩⟩ : Grid).aod.length ∧
        (∀ j, j < (⟨[-9999], [0], [0], ⟨none, none, none⟩⟩ : Grid).aod.length →
          (distGrid ⟨[-9999], [0], [0], ⟨none, none, none⟩⟩ 0 0).getD i 0
            ≤ (distGrid ⟨[-9999], [0], [0], ⟨none, none, none⟩⟩ 0 0).getD j 0) ∧
        read_aod_from_hdf ⟨[-9999], [0], [0], ⟨none, none, none⟩⟩ 0 0
          = .ok ((_apply_scale (⟨[-9999], [0], [0], ⟨none, none, none⟩⟩ : Grid).aod
              (⟨[-9999], [0], [0], ⟨none, none, none⟩⟩ : Grid).attrs).getD i 0)) :=
  ⟨rfl, c10_no_fill_attr_no_error ⟨[-9999], [0], [0], ⟨none, none, none⟩⟩ 0 0
    rfl rfl rfl (by simp)⟩

/-- C9: the temporal window of a granule search is the UTC calendar day of
the requested date, `[midnight, midnight + 1 day)`: an instant `T` lies in
the window iff it is at most 86399 seconds past that day's midnight; with no
date the current UTC day is used; and for 2024-03-10 the window is exactly
`[2024-03-10T00:00:00Z, 2024-03-11T00:00:00Z)` (midnight of 2024-03-11, one
ordinal day later). -/
theorem c9_time_window_is_utc_day (date now : PyDateTime) (T : Nat) :
    ((_time_window (some date) now).1 ≤ T ∧ T < (_time_window (some date) now).2 ↔
      ∃ s, s < 86400 ∧ T = 86400 * toordinal date.year date.month date.day + s) ∧
    _time_window none now = _time_window (some now) now ∧
    _time_window (some ⟨2024, 3, 10, 7, 30, 15⟩) now
      = (86400 * toordinal 2024 3 10, 86400 * toordinal 2024 3 11) ∧
    toordinal 2024 3 11 = toordinal 2024 3 10 + 1 := by
  refine ⟨?_, rfl, by simp only [_time_window, Option.getD_some]; decide, by decide⟩
  simp only [_time_window, Option.getD_some]
  constructor
  · rintro ⟨h1, h2⟩
    exact ⟨T - 86400 * toordinal date.year date.month date.day, by omega, by omega⟩
  · rintro ⟨s, hs, rfl⟩
    omega

/-- C7 counterexample: a link list whose single link has the data-resource
relation tag but an empty `href` (no `href` key).  The claim says this link
is chosen; the code's empty-url guard raises `LookupError` instead. -/
theorem c7_empty_href_data_link_cex :
    pyEndsWith (CmrLink.mk "" "http://esipfed.org/ns/fedsearch/1.1/data#").rel
        "/data#" = true ∧
    ([⟨"", "http://esipfed.org/ns/fedsearch/1.1/data#"⟩] : List CmrLink).find?
        (fun l => pyEndsWith l.href ".hdf") = none ∧
    selectUrl [⟨"", "http://esipfed.org/ns/fedsearch/1.1/data#"⟩]
      = .error .linkLookupError := by
  exact ⟨by decide, by decide, by decide⟩

/-- C7 (amended): the first link whose `href` ends in `.hdf` is chosen; if
none exists, the first link whose `rel` ends in `/data#` is chosen provided
its `href` is nonempty, while an empty `href` on that link fails with
`LookupError`; if no link matches either rule the search fails with
`LookupError`. -/
theorem c7_link_policy (links : List CmrLink) :
    (∀ l0, links.find? (fun l => pyEndsWith l.href ".hdf") = some l0 →
      selectUrl links = .ok l0.href) ∧
    (links.find? (fun l => pyEndsWith l.href ".hdf") = none →
      ∀ l0, links.find? (fun l => pyEndsWith l.rel "/data#") = some l0 →
        (l0.href ≠ "" → selectUrl links = .ok l0.href) ∧
        (l0.href = "" → selectUrl links = .error .linkLookupError)) ∧
    (links.find? (fun l => pyEndsWith l.href ".hdf") = none →
      links.find? (fun l => pyEndsWith l.rel "/data#") = none →
      selectUrl links = .error .linkLookupError) := by
  refine ⟨?_, ?_, ?_⟩
  · intro l0 h
    have hne : l0.href ≠ "" := by
      intro he
      have hp := List.find?_some h
      rw [he] at hp
      exact absurd hp (by decide)
    simp [selectUrl, h, hne]
  · intro hn l0 h
    constructor
    · intro hne
      simp [selectUrl, hn, h, hne]
    · intro he
      simp [selectUrl, hn, h, he]
  · intro h1 h2
    simp [selectUrl, h1, h2]

/-- Witness for C7: the spec's concrete instance — an `.xml` link and an
`.hdf` link in either order; the `.hdf` link is chosen both times. -/
theorem c7_link_policy_witness :
    selectUrl [⟨"http://a/file.xml", "x"⟩, ⟨"http://a/file.hdf", "x"⟩]
        = .ok "http://a/file.hdf" ∧
    selectUrl [⟨"http://a/file.hdf", "x"⟩, ⟨"http://a/file.xml", "x"⟩]
        = .ok "http://a/file.hdf" :=
  ⟨(c7_link_policy _).1 ⟨"http://a/file.hdf", "x"⟩ (by decide),
   (c7_link_policy _).1 ⟨"http://a/file.hdf", "x"⟩ (by decide)⟩

theorem takeWhile_append_all {α : Type} (p : α → Bool) {l : List α} (r : List α)
    (h : ∀ x ∈ l, p x = true) :
    (l ++ r).takeWhile p = l ++ r.takeWhile p := by
  induction l with
  | nil => simp
  | cons a t ih =>
    have ha : p a = true := h a (by simp)
    simp only [List.cons_append, List.takeWhile_cons_of_pos ha]
    rw [ih (fun x hx => h x (by simp [hx]))]

theorem takeWhile_all {α : Type} (p : α → Bool) {l : List α}
    (h : ∀ x ∈ l, p x = true) :
    l.takeWhile p = l := by
  induction l with
  | nil => simp
  | cons a t ih =>
    have ha : p a = true := h a (by simp)
    simp only [List.takeWhile_cons_of_pos ha]
    rw [ih (fun x hx => h x (by simp [hx]))]

/-- `cacheKey` drops everything from the first `'?'` and then everything up
to the last `'/'` of what remains. -/
theorem cacheKey_basename {p b : List Char} (q : List Char)
    (hb : ∀ x ∈ b, x ≠ '/') (hqp : ∀ x ∈ p, x ≠ '?') (hqb : ∀ x ∈ b, x ≠ '?') :
    cacheKey ⟨p ++ '/' :: (b ++ '?' :: q)⟩ = ⟨b⟩ ∧
    cacheKey ⟨p ++ '/' :: b⟩ = ⟨b⟩ := by
  have hpt : ∀ x ∈ p, (x != '?') = true := fun x hx => by
    simpa using hqp x hx
  have hbt : ∀ x ∈ b, (x != '?') = true := fun x hx => by
    simpa using hqb x hx
  have hbs : ∀ x ∈ b.reverse, (x != '/') = true := fun x hx => by
    simpa using hb x (List.mem_reverse.mp hx)
  have hslash : ¬ ((('/' : Char) != '/') = true) := by decide
  have hqq : ¬ ((('?' : Char) != '?') = true) := by decide
  have hsq : (('/' : Char) != '?') = true := by decide
  have hafter : afterLast '/' (p ++ '/' :: b) = b := by
    unfold afterLast
    rw [List.reverse_append, List.reverse_cons, List.append_assoc]
    rw [takeWhile_append_all _ _ hbs]
    rw [List.singleton_append]
    simp [List.takeWhile_cons]
  constructor
  · show (⟨afterLast '/' (beforeFirst '?' (p ++ '/' :: (b ++ '?' :: q)))⟩ : String) = ⟨b⟩
    have h1 : beforeFirst '?' (p ++ '/' :: (b ++ '?' :: q)) = p ++ '/' :: b := by
      unfold beforeFirst
      rw [takeWhile_append_all _ _ hpt]
      rw [show List.takeWhile (fun x => x != '?') ('/' :: (b ++ '?' :: q))
          = '/' :: List.takeWhile (fun x => x != '?') (b ++ '?' :: q) by
        simp [List.takeWhile_cons]]
      rw [takeWhile_append_all _ _ hbt]
      simp [List.takeWhile_cons]
    rw [h1, hafter]
  · show (⟨afterLast '/' (beforeFirst '?' (p ++ '/' :: b))⟩ : String) = ⟨b⟩
    have h1 : beforeFirst '?' (p ++ '/' :: b) = p ++ '/' :: b := by
      unfold beforeFirst
      refine takeWhile_all _ ?_
      intro x hx
      rcases List.mem_append.mp hx with hxp | hxb
      · exact hpt x hxp
      · rcases List.mem_cons.mp hxb with rfl | hxb
        · simp
        · exact hbt x hxb
    rw [h1, hafter]

/-- C5: with the file not cached, a 401 download response raises `AuthError`
— checked before `raise_for_status` — while any other non-success (4xx/5xx)
status raises the distinct `TransportError`. -/
theorem c5_auth_before_transport (net : String → String × String → NetResponse)
    (cache : List String) (url : String) (auth : String × String)
    (hmem : cacheKey url ∉ cache) :
    ((net url auth).status = 401 →
      download_granule net cache url auth
        = (.error .authError, cache, [.httpGet url])) ∧
    ((net url auth).status ≠ 401 → 400 ≤ (net url auth).status →
      (net url auth).status < 600 →
      download_granule net cache url auth
        = (.error .transportError, cache, [.httpGet url])) ∧
    PipelineError.authError ≠ PipelineError.transportError := by
  refine ⟨?_, ?_, by decide⟩
  · intro h401
    simp [download_granule, hmem, h401]
  · intro h401 h400 h600
    simp [download_granule, hmem, h401, h400, h600]

/-- Witness for C5: an uncached URL against a server answering 401
(`AuthError`) and against one answering 500 (`TransportError`). -/
theorem c5_auth_before_transport_witness :
    cacheKey "http://h/f.hdf" ∉ ([] : List String) ∧
    download_granule (fun _ _ => ⟨401⟩) [] "http://h/f.hdf" ("u", "p")
      = (.error .authError, [], [.httpGet "http://h/f.hdf"]) ∧
    download_granule (fun _ _ => ⟨500⟩) [] "http://h/f.hdf" ("u", "p")
      = (.error .transportError, [], [.httpGet "http://h/f.hdf"]) :=
  ⟨by simp,
   (c5_auth_before_transport (fun _ _ => ⟨401⟩) [] "http://h/f.hdf" ("u", "p")
      (by simp)).1 rfl,
   (c5_auth_before_transport (fun _ _ => ⟨500⟩) [] "http://h/f.hdf" ("u", "p")
      (by simp)).2.1 (by decide) (by decide) (by decide)⟩

/-- C6: the cache key is the URL's path basename with any query string
stripped; a cache hit returns the cached path at once with zero network
events; and a successful fetch is idempotent — repeating it downloads
nothing and returns the same path. -/
theorem c6_cache_idempotent (p b q : List Char)
    (net : String → String × String → NetResponse) (cache : List String)
    (url : String) (auth : String × String)
    (hb : ∀ x ∈ b, x ≠ '/') (hqp : ∀ x ∈ p, x ≠ '?') (hqb : ∀ x ∈ b, x ≠ '?') :
    cacheKey ⟨p ++ '/' :: (b ++ '?' :: q)⟩ = ⟨b⟩ ∧
    cacheKey ⟨p ++ '/' :: b⟩ = ⟨b⟩ ∧
    (cacheKey url ∈ cache →
      download_granule net cache url auth
        = (.ok (CACHE_DIR ++ "/" ++ cacheKey url), cache, [])) ∧
    (∀ r c' e, download_granule net cache url auth = (.ok r, c', e) →
      download_granule net c' url auth = (.ok r, c', [])) := by
  obtain ⟨hk1, hk2⟩ := cacheKey_basename q hb hqp hqb
  refine ⟨hk1, hk2, ?_, ?_⟩
  · intro hmem
    simp [download_granule, hmem]
  · intro r c' e h
    by_cases hmem : cacheKey url ∈ cache
    · have hd : download_granule net cache url auth
          = (.ok (CACHE_DIR ++ "/" ++ cacheKey url), cache, []) := by
        simp [download_granule, hmem]
      rw [hd] at h
      injection h with h1 h23
      injection h23 with h2 h3
      injection h1 with h1
      subst h1
      subst h2
      exact hd
    · by_cases h401 : (net url auth).status = 401
      · have hd : download_granule net cache url auth
            = (.error .authError, cache, [.httpGet url]) := by
          simp [download_granule, hmem, h401]
        rw [hd] at h
        exact absurd h (by simp)
      · by_cases h45 : 400 ≤ (net url auth).status ∧ (net url auth).status < 600
        · have hd : download_granule net cache url auth
              = (.error .transportError, cache, [.httpGet url]) := by
            simp [download_granule, hmem, h401, h45]
          rw [hd] at h
          exact absurd h (by simp)
        · have hd : download_granule net cache url auth
              = (.ok (CACHE_DIR ++ "/" ++ cacheKey url),
                  cacheKey url :: cache, [.httpGet url]) := by
            simp [download_granule, hmem, h401, h45]
          rw [hd] at h
          injection h with h1 h23
          injection h23 with h2 h3
          injection h1 with h1
          subst h1
          subst h2
          simp [download_granule]

/-- Witness for C6: `http://host/a/f.hdf?token=1` has cache key `f.hdf`; an
uncached fetch downloads once, and repeating it returns the same path with
no network event. -/
theorem c6_cache_idempotent_witness :
    cacheKey "http://host/a/f.hdf?token=1" = "f.hdf" ∧
    download_granule (fun _ _ => ⟨200⟩) [] "http://host/a/f.hdf?token=1" ("u", "p")
      = (.ok "data/modis_cache/f.hdf", ["f.hdf"],
          [.httpGet "http://host/a/f.hdf?token=1"]) ∧
    download_granule (fun _ _ => ⟨200⟩) ["f.hdf"] "http://host/a/f.hdf?token=1" ("u", "p")
      = (.ok "data/modis_cache/f.hdf", ["f.hdf"], []) := by
  have hc := c6_cache_idempotent "http://host/a".data "f.hdf".data "token=1".data
    (fun _ _ => ⟨200⟩) [] "http://host/a/f.hdf?token=1" ("u", "p")
    (by decide) (by decide) (by decide)
  exact ⟨by decide,
    by decide,
    hc.2.2.2 "data/modis_cache/f.hdf" ["f.hdf"]
      [.httpGet "http://host/a/f.hdf?token=1"] (by decide)⟩

/-- `search_granule` performs exactly one network event: the CMR GET. -/
theorem search_granule_events (cmr : CmrQuery → List CmrEntry) (lat lon : ℚ)
    (date : Option PyDateTime) (now : PyDateTime) :
    (search_granule cmr lat lon date now).2 = [.cmrSearch] := by
  simp only [search_granule]
  cases cmr ⟨SHORT_NAME, _time_window date now,
      (lon - 1/2, lat - 1/2, lon + 1/2, lat + 1/2), 1, "-start_date"⟩ with
  | nil => rfl
  | cons entry tail =>
    show (match selectUrl entry.links with
      | .error e => (Except.error e, [NetEvent.cmrSearch])
      | .ok url => (Except.ok (⟨entry.title, entry.time_start, url⟩ : Granule),
          [NetEvent.cmrSearch])).2 = [NetEvent.cmrSearch]
    cases selectUrl entry.links with
    | error e => rfl
    | ok u => rfl

/-- Missing or empty credentials make `_earthdata_auth` fail with
`ConfigurationError`. -/
theorem earthdata_auth_of_credsMissing (env : PipelineEnv)
    (h : credsMissing env = true) :
    _earthdata_auth env = .error .configurationError := by
  unfold credsMissing at h
  unfold _earthdata_auth
  cases hu : env.username with
  | none => rfl
  | some u =>
    cases hp : env.password with
    | none => rfl
    | some p =>
      rw [hu, hp] at h
      have hor : u = "" ∨ p = "" := by
        rcases Bool.or_eq_true_iff.mp h with h' | h'
        · exact Or.inl (by simpa using h')
        · exact Or.inr (by simpa using h')
      show (if u = "" ∨ p = "" then Except.error PipelineError.configurationError
          else Except.ok (u, p)) = Except.error PipelineError.configurationError
      rw [if_pos hor]

/-- C4 counterexample: in `envC4` the username variable is unset, yet
`fetch_live_aod` performs the geocoding and CMR-search network calls before
failing with `ConfigurationError` — the trace is not empty, contradicting
"before performing any network call". -/
theorem c4_network_before_config_cex :
    credsMissing envC4 = true ∧
    fetch_live_aod envC4 "Paris" none
      = (.error .configurationError, [.geocodeCall "Paris", .cmrSearch]) ∧
    ([.geocodeCall "Paris", .cmrSearch] : List NetEvent) ≠ [] := by
  refine ⟨rfl, ?_, by simp⟩
  rfl

/-- C4 (amended): with either credential variable missing or empty, the
pipeline never reaches the download (no `httpGet` event is performed and no
payload is produced), and as soon as geocoding and the granule search
succeed it fails with `ConfigurationError` — but only after the geocoding
and search network calls. -/
theorem c4_config_before_download (env : PipelineEnv) (city : String)
    (date : Option PyDateTime) (h : credsMissing env = true) :
    (∀ u, NetEvent.httpGet u ∉ (fetch_live_aod env city date).2) ∧
    (∀ pl, (fetch_live_aod env city date).1 ≠ .ok pl) ∧
    (∀ la lo g ev, env.geocodeRes city = some (la, lo) →
      search_granule env.cmr la lo date env.now = (.ok g, ev) →
      (fetch_live_aod env city date).1 = .error .configurationError) := by
  have hauth := earthdata_auth_of_credsMissing env h
  cases hg : env.geocodeRes city with
  | none =>
    have hf : fetch_live_aod env city date
        = (.error .geocodeLookupError, [.geocodeCall city]) := by
      simp [fetch_live_aod, geocode_city, hg]
    refine ⟨?_, ?_, ?_⟩
    · intro u
      rw [hf]
      simp
    · intro pl
      rw [hf]
      simp
    · intro la lo g ev hg' _
      exact absurd hg' (by simp)
  | some loc =>
    obtain ⟨la, lo⟩ := loc
    cases hs : search_granule env.cmr la lo date env.now with
    | mk res ev2 =>
      have hev2 : ev2 = [.cmrSearch] := by
        have := search_granule_events env.cmr la lo date env.now
        rw [hs] at this
        exact this
      subst hev2
      cases res with
      | error e =>
        have hf : fetch_live_aod env city date
            = (.error e, [.geocodeCall city] ++ [.cmrSearch]) := by
          simp only [fetch_live_aod, geocode_city, hg]
          rw [hs]
        refine ⟨?_, ?_, ?_⟩
        · intro u
          rw [hf]
          simp
        · intro pl
          rw [hf]
          simp
        · intro la' lo' g ev hg' hs'
          have h3 := Option.some.inj hg'
          have hla : la' = la := (congrArg Prod.fst h3).symm
          have hlo : lo' = lo := (congrArg Prod.snd h3).symm
          subst hla
          subst hlo
          rw [hs] at hs'
          exact absurd (congrArg Prod.fst hs') (by simp)
      | ok g =>
        have hf : fetch_live_aod env city date
            = (.error .configurationError, [.geocodeCall city] ++ [.cmrSearch]) := by
          simp only [fetch_live_aod, geocode_city, hg]
          rw [hs, hauth]
        refine ⟨?_, ?_, ?_⟩
        · intro u
          rw [hf]
          simp
        · intro pl
          rw [hf]
          simp
        · intro la' lo' g' ev hg' _
          rw [hf]

/-- Witness for C4 (amended) at `envC4`: unset username, geocoding and the
granule search succeed, and the pipeline result is `ConfigurationError`. -/
theorem c4_config_before_download_witness :
    credsMissing envC4 = true ∧
    (fetch_live_aod envC4 "Paris" none).1 = .error .configurationError :=
  ⟨rfl,
    (c4_config_before_download envC4 "Paris" none rfl).2.2 0 0
      ⟨"G1", "2024-03-10T12:00:00Z", "http://h/g.hdf"⟩ [.cmrSearch] rfl rfl⟩

end ModisLive
